import Mathlib

/-!
Verification of the playback-scheduler core of the ArcGIS Qt Message
Simulator (class SimulatorController).  The repository ships only the
header SimulatorController.h, which fixes the public surface (operation
names, member variables, signal names and the doc-comment contracts);
the method bodies live in a source file that is not part of the
repository snapshot, so the behaviour of each operation is modelled
from the specification and from the header's doc comments, as a pure
state-transition system.
-/

namespace Simulator

/-- A Geomessage: one recorded event, an ordered mapping from field
name to field value (both strings).  Mirrors the Geomessage value
passed through the readGeomessage signal. -/
structure Geomessage where
  fields : List (String × String)
deriving Repr, DecidableEq

/-- Modelled from the spec: the body of SimulatorController::getSeconds
is absent from the snapshot (only the declaration at
SimulatorController.h:156 is present).  The spec fixes the mapping
seconds = 1, minutes = 60, hours = 3600, days = 86400, weeks = 604800,
and any unrecognized unit treated as seconds. -/
def getSeconds (unit : String) : Nat :=
  if unit = "seconds" then 1
  else if unit = "minutes" then 60
  else if unit = "hours" then 3600
  else if unit = "days" then 86400
  else if unit = "weeks" then 604800
  else 1

/-- Modelled from the spec: the value of the process-wide constant
SimulatorController::DATE_FORMAT is defined in the absent source file;
the header (line 41) only declares it.  The claims depend only on its
being a single fixed constant, not on its exact text. -/
def DATE_FORMAT : String := "dd.MM.yyyy hh:mm:ss"

/-- Modelled from the spec: rendering of the current wall-clock time
with a date format string (Qt QDateTime::toString).  The exact
rendering is immaterial to the claims; what matters is that every
overridden field receives the same rendering of the same instant
under the same process-wide format. -/
def formatTime (format : String) (now : Nat) : String :=
  format ++ "@" ++ toString now

/-- Modelled from the spec (TimeFieldRewriter, section 4.4): produce a
new record identical to the input except that each field whose name is
in the override list has its value replaced by the formatted time;
override names absent from the record have no field to rewrite and are
ignored. -/
def rewriteMessage (g : Geomessage) (overrides : List String) (now : String) : Geomessage :=
  ⟨g.fields.map (fun p => if p.1 ∈ overrides then (p.1, now) else p)⟩

/-- The mutable state of a SimulatorController, one component per
member variable of the header that the modelled behaviour touches
(timerActive models whether m_timer is armed; messages models the
record stream of the opened input file; tickInterval models the
millisecond interval the timer is armed with, the spec's
"normalized internally to a tick interval in milliseconds"). -/
structure State where
  reachedEndOfFile : Bool
  messageFrequency : ℚ
  tickInterval : ℚ
  messageThroughput : Int
  simulationStarted : Bool
  simulationPaused : Bool
  currentIndex : Nat
  timerActive : Bool
  fieldNames : List String
  timeOverrideFields : List String
  messages : List Geomessage
deriving Repr, DecidableEq

/-- Modelled from the spec: the constructor's initialisation of the
member variables (absent source file).  Uninitialized: no file, empty
field names, cursor 0, default throughput 1, default frequency one
broadcast per second, simulation neither started nor paused. -/
def initialState : State :=
  { reachedEndOfFile := false
    messageFrequency := 1
    tickInterval := 1000
    messageThroughput := 1
    simulationStarted := false
    simulationPaused := false
    currentIndex := 0
    timerActive := false
    fieldNames := []
    timeOverrideFields := []
    messages := [] }

/-- Modelled from the spec: the three-argument
setMessageFrequency(newFrequency, newTimeCount, newTimeUnit) (header
lines 63-73; body absent).  Computes the tick interval in milliseconds
as timeCount * secondsPerUnit(unit) * 1000 / count and stores the
frequency as broadcasts per second; a non-positive count (or time
count) is rejected, leaving the prior valid configuration in effect,
so a non-positive interval is never produced. -/
def setMessageFrequency3 (s : State) (count timeCount : ℚ) (unit : String) : State :=
  if count ≤ 0 ∨ timeCount ≤ 0 then s
  else
    { s with
      messageFrequency := count / (timeCount * (getSeconds unit : ℚ))
      tickInterval := timeCount * (getSeconds unit : ℚ) * 1000 / count }

/-- Modelled from the spec: the one-argument setMessageFrequency
(header lines 56-61; body absent): sets count broadcasts per second,
so the timer interval is 1000 / count milliseconds; non-positive
counts are rejected. -/
def setMessageFrequency1 (s : State) (count : ℚ) : State :=
  if count ≤ 0 then s
  else
    { s with
      messageFrequency := count
      tickInterval := 1000 / count }

/-- Modelled from the spec: setMessageThroughput (header line 88; body
absent): stores the per-tick record count; values below 1 are
rejected, leaving the prior throughput in effect. -/
def setMessageThroughput (s : State) (n : Int) : State :=
  if n < 1 then s else { s with messageThroughput := n }

/-- Modelled from the spec: setTimeOverrideFields (header line 100;
body absent): stores the list of fields whose value will be replaced
with the current time in outgoing messages. -/
def setTimeOverrideFields (s : State) (fs : List String) : State :=
  { s with timeOverrideFields := fs }

/-- Modelled from the spec: initializeSimulator (header line 50; body
absent).  Opening the file can fail (file missing or unreadable,
modelled as none) or the stream can contain no valid first record
(modelled as an empty record list); both are surfaced synchronously as
the call's failure, leaving the state unchanged (still Uninitialized
from the caller's point of view).  On success the field names of the
first record are recorded, the cursor is reset to 0 and the scheduler
is in the Stopped state. -/
def initializeSimulator (s : State) (file : Option (List Geomessage)) :
    Except String State :=
  match file with
  | none => .error "Could not open simulation file"
  | some [] => .error "Simulation file has no valid messages"
  | some (first :: rest) =>
      .ok { s with
            messages := first :: rest
            fieldNames := first.fields.map Prod.fst
            currentIndex := 0
            reachedEndOfFile := false
            simulationStarted := false
            simulationPaused := false
            timerActive := false }

/-- Modelled from the spec: startSimulation (header line 51; body
absent).  Stopped to Running: arms the recurring timer at the current
interval; the cursor begins wherever a prior run left it.  Calling
start when the simulation is already started is a no-op. -/
def startSimulation (s : State) : State :=
  if s.simulationStarted then s
  else { s with simulationStarted := true, simulationPaused := false, timerActive := true }

/-- Modelled from the spec: pauseSimulation (header line 52; body
absent).  Running to Paused: disarms the timer, preserving the cursor;
in any state other than Running it is a no-op. -/
def pauseSimulation (s : State) : State :=
  if s.simulationStarted ∧ ¬s.simulationPaused then
    { s with simulationPaused := true, timerActive := false }
  else s

/-- Modelled from the spec: unpauseSimulation (header line 53; body
absent).  Paused to Running: re-arms the timer at the current
interval; in any state other than Paused it is a no-op. -/
def unpauseSimulation (s : State) : State :=
  if s.simulationStarted ∧ s.simulationPaused then
    { s with simulationPaused := false, timerActive := true }
  else s

/-- Modelled from the spec: stopSimulation (header line 54; body
absent).  Disarms the timer without resetting the cursor: re-starting
resumes from where playback left off; only initializeSimulator resets
the cursor. -/
def stopSimulation (s : State) : State :=
  { s with simulationStarted := false, simulationPaused := false, timerActive := false }

/-- Observer notifications, one constructor per signal declared in the
header (lines 158-160). -/
inductive Event where
  | readGeomessage (g : Geomessage)
  | advancedToGeomessage (index : Nat)
deriving Repr, DecidableEq

/-- Per-record emission loop of one tick: for each record delivered,
emit the rewritten record through readGeomessage and the new cursor
position through advancedToGeomessage. -/
def emitRecords (recs : List Geomessage) (overrides : List String)
    (now : String) (cursor : Nat) : List Event :=
  match recs with
  | [] => []
  | g :: rest =>
      .readGeomessage (rewriteMessage g overrides now) ::
      .advancedToGeomessage (cursor + 1) ::
      emitRecords rest overrides now (cursor + 1)

/-- Delivery part of one tick, given the records actually obtained
from the stream: if none were obtained the end-of-file flag is set;
otherwise each record is rewritten (with the time-override field set
snapshotted at the start of the tick) and emitted, and the cursor
advances by the number of records obtained. -/
def timerDeliver (s : State) (recs : List Geomessage) (now : Nat) : State × List Event :=
  if recs.isEmpty then ({ s with reachedEndOfFile := true }, [])
  else
    ({ s with currentIndex := s.currentIndex + recs.length },
     emitRecords recs s.timeOverrideFields (formatTime DATE_FORMAT now) s.currentIndex)

/-- Modelled from the spec: timerEvent (header line 116; body absent),
the tick handler.  While Running, pull up to messageThroughput records
starting at the cursor; snapshot the time-override field set; rewrite
each record's designated fields with the current time formatted with
DATE_FORMAT; emit the two notifications per record; advance the cursor
by the number of records actually obtained.  If zero records were
obtained the end-of-file flag is set.  When not Running the timer is
disarmed, so no tick fires (modelled as a no-op). -/
def timerTick (s : State) (now : Nat) : State × List Event :=
  if s.simulationStarted ∧ ¬s.simulationPaused then
    timerDeliver s ((s.messages.drop s.currentIndex).take s.messageThroughput.toNat) now
  else (s, [])

/-- One public operation of the controller, for reasoning about
arbitrary call sequences. -/
inductive Op where
  | init (file : Option (List Geomessage))
  | start
  | pause
  | unpause
  | stop
  | setFreq1 (count : ℚ)
  | setFreq3 (count timeCount : ℚ) (unit : String)
  | setThroughput (n : Int)
  | setTimeFields (fs : List String)
  | tick (now : Nat)
deriving DecidableEq

/-- Apply one operation to the state.  A failed initializeSimulator
surfaces its error to the caller and leaves the state unchanged. -/
def step (s : State) : Op → State
  | .init file => (initializeSimulator s file).toOption.getD s
  | .start => startSimulation s
  | .pause => pauseSimulation s
  | .unpause => unpauseSimulation s
  | .stop => stopSimulation s
  | .setFreq1 c => setMessageFrequency1 s c
  | .setFreq3 c t u => setMessageFrequency3 s c t u
  | .setThroughput n => setMessageThroughput s n
  | .setTimeFields fs => setTimeOverrideFields s fs
  | .tick now => (timerTick s now).1

/-- Run a sequence of public operations from a starting state. -/
def run (s : State) (ops : List Op) : State :=
  ops.foldl step s

/-- Fire a sequence of timer ticks at the given instants, collecting
the emitted notifications in order. -/
def runTicks (s : State) (times : List Nat) : State × List Event :=
  match times with
  | [] => (s, [])
  | t :: rest =>
      let first := timerTick s t
      let later := runTicks first.1 rest
      (later.1, first.2 ++ later.2)

/-- True exactly when opening the file would succeed: the file exists,
is readable and contains at least one valid record. -/
def isGoodFile : Option (List Geomessage) → Bool
  | some (_ :: _) => true
  | _ => false

/-- True when no operation of the sequence is an initializeSimulator
call that would succeed. -/
def noGoodInit (ops : List Op) : Bool :=
  ops.all fun op =>
    match op with
    | .init f => !(isGoodFile f)
    | _ => true

/-- A three-record sample stream, used to instantiate theorems on
concrete inputs. -/
def sampleMessages : List Geomessage :=
  [⟨[("uniquedesignation", "alpha"), ("datetimevalid", "t0")]⟩,
   ⟨[("uniquedesignation", "bravo"), ("datetimevalid", "t1")]⟩,
   ⟨[("uniquedesignation", "charlie"), ("datetimevalid", "t2")]⟩]

/-- The controller freshly initialized on the sample stream and
started: Running, cursor 0, default throughput 1. -/
def runningState : State :=
  startSimulation (step initialState (Op.init (some sampleMessages)))

end Simulator

namespace Simulator

/-- Every recognized time unit stands for a positive number of
seconds, and so does the fallback for unrecognized units. -/
theorem getSeconds_pos (unit : String) : 0 < getSeconds unit := by
  unfold getSeconds
  repeat' split
  all_goals norm_num

/-- C1: for every valid frequency specification (count > 0,
timeCount > 0, any unit), setMessageFrequency(count, timeCount, unit)
produces a tick interval of timeCount * secondsPerUnit(unit) * 1000 /
count milliseconds, where secondsPerUnit maps seconds to 1, minutes to
60, hours to 3600, days to 86400, weeks to 604800 and any unrecognized
unit to 1; e.g. (50, 6, minutes) gives 7200 ms per tick. -/
theorem setMessageFrequency_tickInterval (s : State) (count timeCount : ℚ)
    (unit : String) (hc : 0 < count) (ht : 0 < timeCount) :
    (setMessageFrequency3 s count timeCount unit).tickInterval
      = timeCount * (getSeconds unit : ℚ) * 1000 / count
    ∧ getSeconds "seconds" = 1 ∧ getSeconds "minutes" = 60
    ∧ getSeconds "hours" = 3600 ∧ getSeconds "days" = 86400
    ∧ getSeconds "weeks" = 604800
    ∧ (unit ∉ ["seconds", "minutes", "hours", "days", "weeks"] →
        getSeconds unit = 1)
    ∧ (setMessageFrequency3 s 50 6 "minutes").tickInterval = 7200 := by
  refine ⟨?_, by decide, by decide, by decide, by decide, by decide, ?_, ?_⟩
  · simp [setMessageFrequency3, not_le.mpr hc, not_le.mpr ht]
  · intro h
    simp only [List.mem_cons, List.mem_singleton, not_or] at h
    obtain ⟨h1, h2, h3, h4, h5, -⟩ := h
    unfold getSeconds
    rw [if_neg h1, if_neg h2, if_neg h3, if_neg h4, if_neg h5]
  · have h50 : ¬((50 : ℚ) ≤ 0 ∨ (6 : ℚ) ≤ 0) := by norm_num
    have hm : getSeconds "minutes" = 60 := by decide
    simp only [setMessageFrequency3, if_neg h50, hm]
    norm_num

/-- Witness for C1 at the spec's own example (50, 6, minutes). -/
theorem setMessageFrequency_tickInterval_witness :
    (setMessageFrequency3 initialState 50 6 "minutes").tickInterval
      = 6 * (getSeconds "minutes" : ℚ) * 1000 / 50 :=
  (setMessageFrequency_tickInterval initialState 50 6 "minutes"
    (by norm_num) (by norm_num)).1

/-- C7: configuration setters reject invalid values while retaining
the previously accepted configuration: a non-positive frequency count
leaves the state untouched (so no non-positive tick interval is ever
produced, and a valid specification always yields a positive one), a
throughput below 1 leaves the state untouched, and the getters return
the last validly set values. -/
theorem setters_reject_invalid (s : State) (count timeCount : ℚ)
    (unit : String) (n : Int) :
    (count ≤ 0 → setMessageFrequency3 s count timeCount unit = s
      ∧ setMessageFrequency1 s count = s)
    ∧ (0 < count → 0 < timeCount →
        0 < (setMessageFrequency3 s count timeCount unit).tickInterval
        ∧ (setMessageFrequency3 s count timeCount unit).messageFrequency
            = count / (timeCount * (getSeconds unit : ℚ)))
    ∧ (n < 1 → setMessageThroughput s n = s)
    ∧ (1 ≤ n → (setMessageThroughput s n).messageThroughput = n) := by
  have hsec : (0 : ℚ) < (getSeconds unit : ℚ) := by
    exact_mod_cast getSeconds_pos unit
  refine ⟨fun hc => ⟨?_, ?_⟩, fun hc ht => ⟨?_, ?_⟩, fun hn => ?_, fun hn => ?_⟩
  · simp [setMessageFrequency3, hc]
  · simp [setMessageFrequency1, hc]
  · have hcond : ¬(count ≤ 0 ∨ timeCount ≤ 0) := by
      push_neg
      exact ⟨hc, ht⟩
    simp only [setMessageFrequency3, if_neg hcond]
    exact div_pos (mul_pos (mul_pos ht hsec) (by norm_num)) hc
  · have hcond : ¬(count ≤ 0 ∨ timeCount ≤ 0) := by
      push_neg
      exact ⟨hc, ht⟩
    simp [setMessageFrequency3, if_neg hcond]
  · simp [setMessageThroughput, hn]
  · simp [setMessageThroughput, not_lt.mpr hn]

/-- Witness for C7 at count = -2, throughput n = 0 against the initial
state, and at the valid pair (50, 6, minutes). -/
theorem setters_reject_invalid_witness :
    setMessageFrequency3 initialState (-2) 6 "minutes" = initialState
    ∧ setMessageThroughput initialState 0 = initialState
    ∧ 0 < (setMessageFrequency3 initialState 50 6 "minutes").tickInterval :=
  ⟨((setters_reject_invalid initialState (-2) 6 "minutes" 0).1 (by norm_num)).1,
   (setters_reject_invalid initialState (-2) 6 "minutes" 0).2.2.1 (by norm_num),
   ((setters_reject_invalid initialState 50 6 "minutes" 0).2.1
      (by norm_num) (by norm_num)).1⟩

/-- C8: the one-argument setMessageFrequency(count) is observationally
equivalent to the three-argument setMessageFrequency(count, 1,
seconds): the whole resulting state, in particular the tick interval
and the stored frequency, is identical. -/
theorem setMessageFrequency_one_arg_equiv (s : State) (count : ℚ) :
    setMessageFrequency1 s count = setMessageFrequency3 s count 1 "seconds" := by
  unfold setMessageFrequency1 setMessageFrequency3
  have hsec : getSeconds "seconds" = 1 := by decide
  by_cases h : count ≤ 0
  · simp [h]
  · have hcond : ¬(count ≤ 0 ∨ (1 : ℚ) ≤ 0) := by
      push_neg
      exact ⟨lt_of_not_le h, by norm_num⟩
    rw [if_neg h, if_neg hcond]
    simp [hsec]

end Simulator

namespace Simulator

/-- C2: the cursor is preserved across pause, resume and stop;
starting again after stop resumes from the prior cursor value; a
successful (re-)initialize, and only it, resets the cursor to 0. -/
theorem cursor_preserved (s : State) (first : Geomessage) (rest : List Geomessage) :
    (pauseSimulation s).currentIndex = s.currentIndex
    ∧ (unpauseSimulation s).currentIndex = s.currentIndex
    ∧ (stopSimulation s).currentIndex = s.currentIndex
    ∧ (startSimulation (stopSimulation s)).currentIndex = s.currentIndex
    ∧ ((initializeSimulator s (some (first :: rest))).toOption.getD s).currentIndex = 0 := by
  refine ⟨?_, ?_, rfl, ?_, rfl⟩
  · unfold pauseSimulation
    split <;> rfl
  · unfold unpauseSimulation
    split <;> rfl
  · unfold startSimulation stopSimulation
    simp

/-- C6: calling start when already Running, pause in any state other
than Running, or resume in any state other than Paused, leaves the
whole state (run flags, cursor, timer, configuration) unchanged. -/
theorem lifecycle_no_ops (s : State) :
    (s.simulationStarted = true → startSimulation s = s)
    ∧ (¬(s.simulationStarted = true ∧ s.simulationPaused = false) →
        pauseSimulation s = s)
    ∧ (¬(s.simulationStarted = true ∧ s.simulationPaused = true) →
        unpauseSimulation s = s) := by
  refine ⟨fun h => ?_, fun h => ?_, fun h => ?_⟩
  · simp [startSimulation, h]
  · unfold pauseSimulation
    rw [if_neg]
    simp only [Bool.not_eq_true] at h ⊢
    intro hc
    rcases hc with ⟨h1, h2⟩
    exact h ⟨h1, by simpa using h2⟩
  · unfold unpauseSimulation
    rw [if_neg]
    intro hc
    exact h ⟨hc.1, hc.2⟩

/-- Witness for C6: start on an already-running controller and resume
on a non-paused controller are both no-ops. -/
theorem lifecycle_no_ops_witness :
    startSimulation runningState = runningState
    ∧ unpauseSimulation runningState = runningState :=
  ⟨(lifecycle_no_ops runningState).1 (by decide),
   (lifecycle_no_ops runningState).2.2 (by decide)⟩

end Simulator

namespace Simulator

/-- C4: the time-field rewrite keeps the record's length and field
names (in order); each field whose name is in the override set has its
value replaced by the current time formatted with the process-wide
DATE_FORMAT constant, every other field is unchanged byte for byte,
and when every override name is absent from the record the result is
the record itself (absent names are silently ignored). -/
theorem rewriteMessage_spec (g : Geomessage) (overrides : List String) (t : Nat) :
    (rewriteMessage g overrides (formatTime DATE_FORMAT t)).fields.length
        = g.fields.length
    ∧ (∀ (i : Nat) (p : String × String), g.fields[i]? = some p →
        (rewriteMessage g overrides (formatTime DATE_FORMAT t)).fields[i]?
          = some (if p.1 ∈ overrides then (p.1, formatTime DATE_FORMAT t) else p))
    ∧ (rewriteMessage g overrides (formatTime DATE_FORMAT t)).fields.map Prod.fst
        = g.fields.map Prod.fst
    ∧ ((∀ nm ∈ overrides, nm ∉ g.fields.map Prod.fst) →
        rewriteMessage g overrides (formatTime DATE_FORMAT t) = g) := by
  refine ⟨by simp [rewriteMessage], ?_, ?_, ?_⟩
  · intro i p hp
    simp [rewriteMessage, List.getElem?_map, hp]
  · simp only [rewriteMessage, List.map_map]
    apply List.map_congr_left
    intro p hp
    by_cases hmem : p.1 ∈ overrides <;> simp [hmem]
  · intro h
    cases g with
    | mk fs =>
        simp only [rewriteMessage, Geomessage.mk.injEq]
        conv_rhs => rw [← List.map_id fs]
        apply List.map_congr_left
        intro p hp
        have hno : p.1 ∉ overrides := fun hm =>
          h p.1 hm (List.mem_map_of_mem Prod.fst hp)
        simp [hno]

/-- Witness for C4 on the two-field record with names id and ts and
override set containing only ts. -/
theorem rewriteMessage_spec_witness :
    (rewriteMessage ⟨[("id", "1"), ("ts", "2020-01-01")]⟩ ["ts"]
        (formatTime DATE_FORMAT 0)).fields[1]?
      = some ("ts", formatTime DATE_FORMAT 0) := by
  rw [(rewriteMessage_spec ⟨[("id", "1"), ("ts", "2020-01-01")]⟩ ["ts"] 0).2.1
      1 ("ts", "2020-01-01") rfl]
  decide

end Simulator

namespace Simulator

/-- Stepping by any operation that is not a successful initialize
leaves the recorded field names unchanged. -/
theorem step_fieldNames (s : State) (op : Op)
    (h : ∀ f, op = Op.init f → isGoodFile f = false) :
    (step s op).fieldNames = s.fieldNames := by
  cases op with
  | init f =>
      have hf := h f rfl
      match f, hf with
      | none, _ => rfl
      | some [], _ => rfl
      | some (a :: l), hf => simp [isGoodFile] at hf
  | start =>
      show (startSimulation s).fieldNames = s.fieldNames
      unfold startSimulation
      split <;> rfl
  | pause =>
      show (pauseSimulation s).fieldNames = s.fieldNames
      unfold pauseSimulation
      split <;> rfl
  | unpause =>
      show (unpauseSimulation s).fieldNames = s.fieldNames
      unfold unpauseSimulation
      split <;> rfl
  | stop => rfl
  | setFreq1 c =>
      show (setMessageFrequency1 s c).fieldNames = s.fieldNames
      unfold setMessageFrequency1
      split <;> rfl
  | setFreq3 c t u =>
      show (setMessageFrequency3 s c t u).fieldNames = s.fieldNames
      unfold setMessageFrequency3
      split <;> rfl
  | setThroughput n =>
      show (setMessageThroughput s n).fieldNames = s.fieldNames
      unfold setMessageThroughput
      split <;> rfl
  | setTimeFields fs => rfl
  | tick now =>
      show (timerTick s now).1.fieldNames = s.fieldNames
      unfold timerTick timerDeliver
      split
      · split <;> rfl
      · rfl

/-- Along a whole operation sequence containing no successful
initialize, the recorded field names never change. -/
theorem run_fieldNames (ops : List Op) (s : State)
    (h : noGoodInit ops = true) :
    (run s ops).fieldNames = s.fieldNames := by
  induction ops generalizing s with
  | nil => rfl
  | cons op rest ih =>
      rw [noGoodInit, List.all_cons, Bool.and_eq_true] at h
      have h1 : ∀ f, op = Op.init f → isGoodFile f = false := by
        intro f hf
        subst hf
        simpa using h.1
      show (run (step s op) rest).fieldNames = s.fieldNames
      rw [ih (step s op) h.2, step_fieldNames s op h1]

/-- C3: a failed initialization (missing or unreadable file, or no
valid first record) is surfaced synchronously as the call's error, so
the caller's state is unchanged; along any operation sequence from the
fresh controller containing no successful initialization the field
names stay empty; a successful initialization returns a state whose
field names are those of the first record of the message file. -/
theorem initialization_failure (s : State) (file : Option (List Geomessage))
    (ops : List Op) (first : Geomessage) (rest : List Geomessage)
    (hfile : isGoodFile file = false) (hops : noGoodInit ops = true) :
    (∃ e, initializeSimulator s file = Except.error e)
    ∧ (run initialState ops).fieldNames = []
    ∧ ∃ t, initializeSimulator s (some (first :: rest)) = Except.ok t
        ∧ t.fieldNames = first.fields.map Prod.fst := by
  refine ⟨?_, ?_, ⟨_, rfl, rfl⟩⟩
  · match file, hfile with
    | none, _ => exact ⟨_, rfl⟩
    | some [], _ => exact ⟨_, rfl⟩
    | some (a :: l), hfile => simp [isGoodFile] at hfile
  · rw [run_fieldNames ops initialState hops]
    rfl

/-- Witness for C3: a missing file fails, field names stay empty along
a sequence with a failing initialize, and a one-record file succeeds
with that record's field names. -/
theorem initialization_failure_witness :
    (∃ e, initializeSimulator initialState none = Except.error e)
    ∧ (run initialState [Op.init none, Op.start, Op.tick 5]).fieldNames = []
    ∧ ∃ t, initializeSimulator initialState
          (some ((⟨[("id", "1")]⟩ : Geomessage) :: []))
        = Except.ok t
        ∧ t.fieldNames = (⟨[("id", "1")]⟩ : Geomessage).fields.map Prod.fst :=
  initialization_failure initialState none [Op.init none, Op.start, Op.tick 5]
    ⟨[("id", "1")]⟩ [] rfl rfl

end Simulator

namespace Simulator

/-- Every single public operation preserves the flag invariant
"paused implies started". -/
theorem step_paused_started (s : State) (op : Op)
    (h : s.simulationPaused = true → s.simulationStarted = true) :
    (step s op).simulationPaused = true → (step s op).simulationStarted = true := by
  cases op with
  | init f =>
      match f with
      | none => exact h
      | some [] => exact h
      | some (a :: l) => exact fun hp => Bool.noConfusion hp
  | start =>
      show (startSimulation s).simulationPaused = true →
          (startSimulation s).simulationStarted = true
      unfold startSimulation
      split
      · exact h
      · exact fun _ => rfl
  | pause =>
      show (pauseSimulation s).simulationPaused = true →
          (pauseSimulation s).simulationStarted = true
      unfold pauseSimulation
      split
      · rename_i hc
        exact fun _ => hc.1
      · exact h
  | unpause =>
      show (unpauseSimulation s).simulationPaused = true →
          (unpauseSimulation s).simulationStarted = true
      unfold unpauseSimulation
      split
      · exact fun hp => Bool.noConfusion hp
      · exact h
  | stop => exact fun hp => Bool.noConfusion hp
  | setFreq1 c =>
      show (setMessageFrequency1 s c).simulationPaused = true →
          (setMessageFrequency1 s c).simulationStarted = true
      unfold setMessageFrequency1
      split <;> exact h
  | setFreq3 c t u =>
      show (setMessageFrequency3 s c t u).simulationPaused = true →
          (setMessageFrequency3 s c t u).simulationStarted = true
      unfold setMessageFrequency3
      split <;> exact h
  | setThroughput n =>
      show (setMessageThroughput s n).simulationPaused = true →
          (setMessageThroughput s n).simulationStarted = true
      unfold setMessageThroughput
      split <;> exact h
  | setTimeFields fs => exact h
  | tick now =>
      show (timerTick s now).1.simulationPaused = true →
          (timerTick s now).1.simulationStarted = true
      unfold timerTick timerDeliver
      split
      · split <;> exact h
      · exact h

/-- The flag invariant "paused implies started" is preserved by whole
operation sequences. -/
theorem run_paused_started (ops : List Op) (s : State)
    (h : s.simulationPaused = true → s.simulationStarted = true) :
    (run s ops).simulationPaused = true → (run s ops).simulationStarted = true := by
  induction ops generalizing s with
  | nil => exact h
  | cons op rest ih => exact ih (step s op) (step_paused_started s op h)

/-- C10: in every state reachable from the fresh controller through
any sequence of public operations, the paused flag being set implies
the started flag is set: the invalid combination paused-but-not-started
never occurs, even though the two independent booleans could encode
it. -/
theorem paused_implies_started (ops : List Op)
    (h : (run initialState ops).simulationPaused = true) :
    (run initialState ops).simulationStarted = true :=
  run_paused_started ops initialState (fun hp => Bool.noConfusion hp) h

/-- Witness for C10: after initialize, start, pause the controller is
paused, and the theorem yields that it is also started. -/
theorem paused_implies_started_witness :
    (run initialState
        [Op.init (some sampleMessages), Op.start, Op.pause]).simulationStarted
      = true :=
  paused_implies_started [Op.init (some sampleMessages), Op.start, Op.pause]
    (by decide)

/-- C5: end to end on the three-record sample stream with throughput
1: three ticks while Running fire exactly three readGeomessage
notifications, in record order, with cursor notifications 1, 2, 3;
the end-of-stream flag is still clear after each of the three
deliveries, a fourth tick delivers nothing, and only then is the
end-of-stream flag set. -/
theorem playback_end_to_end :
    (runTicks runningState [1, 2, 3]).2 =
      [Event.readGeomessage ⟨[("uniquedesignation", "alpha"), ("datetimevalid", "t0")]⟩,
       Event.advancedToGeomessage 1,
       Event.readGeomessage ⟨[("uniquedesignation", "bravo"), ("datetimevalid", "t1")]⟩,
       Event.advancedToGeomessage 2,
       Event.readGeomessage ⟨[("uniquedesignation", "charlie"), ("datetimevalid", "t2")]⟩,
       Event.advancedToGeomessage 3]
    ∧ (runTicks runningState [1]).1.currentIndex = 1
    ∧ (runTicks runningState [1, 2]).1.currentIndex = 2
    ∧ (runTicks runningState [1, 2, 3]).1.currentIndex = 3
    ∧ (runTicks runningState [1]).1.reachedEndOfFile = false
    ∧ (runTicks runningState [1, 2]).1.reachedEndOfFile = false
    ∧ (runTicks runningState [1, 2, 3]).1.reachedEndOfFile = false
    ∧ (runTicks runningState [1, 2, 3, 4]).2 = (runTicks runningState [1, 2, 3]).2
    ∧ (runTicks runningState [1, 2, 3, 4]).1.reachedEndOfFile = true := by
  decide

end Simulator
